import Mathlib

/-!
# Verification of the FXOS8700 accelerometer/magnetometer driver

Shallow embedding of `src/nxp_imu/FXOS8700.py`.  The external I2C bus is
abstracted: a read is modelled by the byte (or byte list) the bus returns,
and the writes the driver issues are recorded, in order, as a list of
register/value pairs.  Python machine behaviour is embedded as follows:

* Python `int` values read from registers are `Nat` (bytes) resp. `Int`
  after signed decoding;
* Python `x >> n` on `int` is an arithmetic (floor) shift,
  `x >> n = ⌊x / 2^n⌋`, embedded as `Int.fdiv x (2 ^ n)`;
* `struct.unpack('>hhhhhh', data)` requires the buffer to hold exactly
  12 bytes and decodes six big-endian two's-complement 16-bit integers;
* `struct.unpack('b', data)` decodes one two's-complement 8-bit integer;
* the Python float scale constants are embedded as the rationals they
  denote in the source text;
* a raised exception is an `Except.error` carrying the error kind.
-/

namespace NxpImu

/-- `FXOS8700_ADDRESS = 0x1E` (FXOS8700.py line 10). -/
def FXOS8700_ADDRESS : Nat := 0x1E

/-- `FXOS8700_ID = 0xC7` (line 11): expected WHO_AM_I byte. -/
def FXOS8700_ID : Nat := 0xC7

/-- `FXOS8700_REGISTER_WHO_AM_I = 0x0D` (line 20). -/
def FXOS8700_REGISTER_WHO_AM_I : Nat := 0x0D

/-- `FXOS8700_REGISTER_XYZ_DATA_CFG = 0x0E` (line 21). -/
def FXOS8700_REGISTER_XYZ_DATA_CFG : Nat := 0x0E

/-- `FXOS8700_REGISTER_CTRL_REG1 = 0x2A` (line 22). -/
def FXOS8700_REGISTER_CTRL_REG1 : Nat := 0x2A

/-- `FXOS8700_REGISTER_CTRL_REG2 = 0x2B` (line 23). -/
def FXOS8700_REGISTER_CTRL_REG2 : Nat := 0x2B

/-- `FXOS8700_REGISTER_TEMPERATURE = 0x51` (line 34). -/
def FXOS8700_REGISTER_TEMPERATURE : Nat := 0x51

/-- `FXOS8700_REGISTER_MCTRL_REG1 = 0x5B` (line 35): magnetometer control. -/
def FXOS8700_REGISTER_MCTRL_REG1 : Nat := 0x5B

/-- `ACCEL_RANGE_2G = 0x00` (line 39). -/
def ACCEL_RANGE_2G : Nat := 0x00

/-- `ACCEL_RANGE_4G = 0x01` (line 40). -/
def ACCEL_RANGE_4G : Nat := 0x01

/-- `ACCEL_RANGE_8G = 0x02` (line 41). -/
def ACCEL_RANGE_8G : Nat := 0x02

/-- `ACCEL_MG_LSB_2G = 0.000244` (line 43), as the rational it denotes. -/
def ACCEL_MG_LSB_2G : ℚ := 244 / 1000000

/-- `ACCEL_MG_LSB_4G = 0.000488` (line 44). -/
def ACCEL_MG_LSB_4G : ℚ := 488 / 1000000

/-- `ACCEL_MG_LSB_8G = 0.000976` (line 45). -/
def ACCEL_MG_LSB_8G : ℚ := 976 / 1000000

/-- `MAG_UT_LSB = 0.1` (line 46). -/
def MAG_UT_LSB : ℚ := 1 / 10

/-- Big-endian 16-bit combination of two bytes, as in struct format `>h`. -/
def be16 (hi lo : Nat) : Nat := hi * 256 + lo

/-- Two's-complement reading of a 16-bit pattern (struct format `h`). -/
def toSigned16 (n : Nat) : Int :=
  if n < 32768 then (n : Int) else (n : Int) - 65536

/-- Two's-complement reading of an 8-bit pattern (struct format `b`). -/
def toSigned8 (n : Nat) : Int :=
  if n < 128 then (n : Int) else (n : Int) - 256

/-- Python's `>>` on `int`: arithmetic shift, `x >> n = ⌊x / 2^n⌋`
(sign-replicating on two's-complement values). -/
def pyShiftRight (x : Int) (n : Nat) : Int := Int.fdiv x (2 ^ n)

/-- The error kinds the constructor and `get` can raise.  In the Python
source each is a raised exception; the spec names them `IdentityMismatch`,
`InvalidConfiguration` and `BusReadFailed`. -/
inductive DriverError where
  /-- `raise Exception('Error talking to FXOS8700 at', ...)` (line 68):
  WHO_AM_I byte did not match, carrying expected byte, actual byte and
  device address. -/
  | identityMismatch (expected actual addr : Nat)
  /-- `raise Exception('Invalide accel range: ...')` (line 88). -/
  | invalidConfiguration (gs : Option Int)
  /-- `struct.unpack` failure on a buffer that is not exactly 12 bytes
  (line 130); the spec calls this `BusReadFailed`. -/
  | busReadFailed
  deriving DecidableEq

/-- One single-byte register write issued on the bus: `write8(reg, val)`. -/
structure Write where
  reg : Nat
  val : Nat
  deriving DecidableEq

/-- Driver state: the `scale` attribute.  The class attribute starts as
`None` (line 57) and `__init__` assigns the per-range constant (lines
77/81/85). -/
structure FXOS8700 where
  scale : Option ℚ
  deriving DecidableEq

/-- The three configuration writes issued after the range write
(lines 91, 94, 97): CTRL_REG2 := 0x02, MCTRL_REG1 := 0x00,
CTRL_REG1 := 0x05. -/
def tailWrites : List Write :=
  [⟨FXOS8700_REGISTER_CTRL_REG2, 0x02⟩,
   ⟨FXOS8700_REGISTER_MCTRL_REG1, 0x00⟩,
   ⟨FXOS8700_REGISTER_CTRL_REG1, 0x05⟩]

/-- `FXOS8700.__init__` (lines 59-97).  `gs` is the requested range
argument (`None` when omitted); `whoami` is the byte the WHO_AM_I read
returns.  Result: the constructed driver or the raised error, together
with the list of register writes issued up to that point, in order.
Mirrors the source line by line: the WHO_AM_I check (67-68) comes first
and issues no write; the standby write CTRL_REG1 := 0 (71) comes next;
the range dispatch (75-88) then either writes XYZ_DATA_CFG and stores the
scale, or raises; finally the three tail writes (91-97). -/
def FXOS8700_init (gs : Option Int) (whoami : Nat) :
    Except DriverError FXOS8700 × List Write :=
  if whoami ≠ FXOS8700_ID then
    (Except.error (DriverError.identityMismatch FXOS8700_ID whoami FXOS8700_ADDRESS), [])
  else
    -- line 71 issues the standby write ⟨CTRL_REG1, 0⟩ before the range dispatch
    if gs = some 2 ∨ gs = none then
      (Except.ok ⟨some ACCEL_MG_LSB_2G⟩,
        ⟨FXOS8700_REGISTER_CTRL_REG1, 0⟩ ::
          ⟨FXOS8700_REGISTER_XYZ_DATA_CFG, ACCEL_RANGE_2G⟩ :: tailWrites)
    else if gs = some 4 then
      (Except.ok ⟨some ACCEL_MG_LSB_4G⟩,
        ⟨FXOS8700_REGISTER_CTRL_REG1, 0⟩ ::
          ⟨FXOS8700_REGISTER_XYZ_DATA_CFG, ACCEL_RANGE_4G⟩ :: tailWrites)
    else if gs = some 8 then
      (Except.ok ⟨some ACCEL_MG_LSB_8G⟩,
        ⟨FXOS8700_REGISTER_CTRL_REG1, 0⟩ ::
          ⟨FXOS8700_REGISTER_XYZ_DATA_CFG, ACCEL_RANGE_8G⟩ :: tailWrites)
    else
      (Except.error (DriverError.invalidConfiguration gs),
        [⟨FXOS8700_REGISTER_CTRL_REG1, 0⟩])

/-- `struct.unpack('>hhhhhh', data)` (line 130): requires the buffer to
hold exactly `calcsize('>hhhhhh') = 12` bytes, else raises; decodes six
big-endian two's-complement 16-bit integers. -/
def unpack6h (data : List Nat) : Option (Int × Int × Int × Int × Int × Int) :=
  if data.length = 12 then
    some (toSigned16 (be16 (data.getD 0 0) (data.getD 1 0)),
          toSigned16 (be16 (data.getD 2 0) (data.getD 3 0)),
          toSigned16 (be16 (data.getD 4 0) (data.getD 5 0)),
          toSigned16 (be16 (data.getD 6 0) (data.getD 7 0)),
          toSigned16 (be16 (data.getD 8 0) (data.getD 9 0)),
          toSigned16 (be16 (data.getD 10 0) (data.getD 11 0)))
  else none

/-- `FXOS8700.get` (lines 123-138).  `data` is the byte list the burst
read `read_block(0x1, 12)` returned.  `none` models a raised exception:
`struct.unpack` fails when `data` is not exactly 12 bytes, and the scale
multiplication fails when `scale` is still `None`.  Otherwise returns the
acceleration triple (each field `>> 2`, times `scale`) and the magnetic
triple (each field times `MAG_UT_LSB`). -/
def FXOS8700_get (drv : FXOS8700) (data : List Nat) :
    Option ((ℚ × ℚ × ℚ) × (ℚ × ℚ × ℚ)) :=
  match unpack6h data with
  | none => none
  | some (ax, ay, az, mx, my, mz) =>
    match drv.scale with
    | none => none
    | some s =>
      some (((pyShiftRight ax 2 : ℚ) * s,
             (pyShiftRight ay 2 : ℚ) * s,
             (pyShiftRight az 2 : ℚ) * s),
            ((mx : ℚ) * MAG_UT_LSB, (my : ℚ) * MAG_UT_LSB, (mz : ℚ) * MAG_UT_LSB))

/-- `FXOS8700.temperature` (lines 112-121).  `t` is the byte the
temperature-register read returned; `struct.unpack('b', ...)` decodes it
as an 8-bit two's-complement signed integer. -/
def FXOS8700_temperature (t : Nat) : Int := toSigned8 t

/-- Spec-side range-code table (refinement reference): "2G→0, 4G→1, 8G→2,
default 2" in the spec's words, to be compared with the codes
`FXOS8700_init` actually writes. -/
def specRangeCode (gs : Option Int) : Nat :=
  match gs with
  | none => 0
  | some g => if g = 2 then 0 else if g = 4 then 1 else if g = 8 then 2 else 0

/-! ## Helper lemmas -/

/-- Arithmetic right shift by 2 depends only on the bit pattern above the
low two bits: if two 16-bit patterns have the same quotient by 4, their
signed values shift to the same result. -/
theorem toSigned16_shift_congr (n1 n2 : Nat) (h : n1 / 4 = n2 / 4) :
    pyShiftRight (toSigned16 n1) 2 = pyShiftRight (toSigned16 n2) 2 := by
  unfold pyShiftRight toSigned16
  rw [show ((2 : Int) ^ 2) = 4 by norm_num,
    Int.fdiv_eq_ediv _ (by norm_num), Int.fdiv_eq_ediv _ (by norm_num)]
  split <;> split <;> omega

/-- Arithmetic right shift preserves strict negativity. -/
theorem pyShiftRight_neg (x : Int) (hx : x < 0) : pyShiftRight x 2 < 0 := by
  unfold pyShiftRight
  rw [show ((2 : Int) ^ 2) = 4 by norm_num, Int.fdiv_eq_ediv _ (by norm_num)]
  omega

/-- Evaluation of `FXOS8700_get` on an explicit 12-byte list and a set
scale. -/
theorem FXOS8700_get_eval (s : ℚ)
    (b0 b1 b2 b3 b4 b5 b6 b7 b8 b9 b10 b11 : Nat) :
    FXOS8700_get ⟨some s⟩ [b0, b1, b2, b3, b4, b5, b6, b7, b8, b9, b10, b11] =
      some (((pyShiftRight (toSigned16 (be16 b0 b1)) 2 : ℚ) * s,
             (pyShiftRight (toSigned16 (be16 b2 b3)) 2 : ℚ) * s,
             (pyShiftRight (toSigned16 (be16 b4 b5)) 2 : ℚ) * s),
            ((toSigned16 (be16 b6 b7) : ℚ) * MAG_UT_LSB,
             (toSigned16 (be16 b8 b9) : ℚ) * MAG_UT_LSB,
             (toSigned16 (be16 b10 b11) : ℚ) * MAG_UT_LSB)) := by
  rfl

/-! ## Claims -/

/-- C1: for every 12-byte burst result, `get` decodes the first three
big-endian signed 16-bit fields by arithmetically right-shifting each by
2 bits and multiplying by the stored scale; the shift is sign-preserving
(every negative raw field decodes to a negative value when the scale is
positive); and with the 2G scale 0.000244, raw 0x0190 decodes to 0.0244,
raw 0xFE70 to -0.0244 and raw 0x0000 to 0. -/
theorem C1_accel_decode (s : ℚ) (hs : 0 < s)
    (b0 b1 b2 b3 b4 b5 b6 b7 b8 b9 b10 b11 : Nat) :
    (∃ m, FXOS8700_get ⟨some s⟩ [b0, b1, b2, b3, b4, b5, b6, b7, b8, b9, b10, b11] =
        some (((pyShiftRight (toSigned16 (be16 b0 b1)) 2 : ℚ) * s,
               (pyShiftRight (toSigned16 (be16 b2 b3)) 2 : ℚ) * s,
               (pyShiftRight (toSigned16 (be16 b4 b5)) 2 : ℚ) * s), m)) ∧
    (∀ v : Nat, toSigned16 v < 0 → (pyShiftRight (toSigned16 v) 2 : ℚ) * s < 0) ∧
    (pyShiftRight (toSigned16 0x0190) 2 : ℚ) * ACCEL_MG_LSB_2G = 244 / 10000 ∧
    (pyShiftRight (toSigned16 0xFE70) 2 : ℚ) * ACCEL_MG_LSB_2G = -(244 / 10000) ∧
    (pyShiftRight (toSigned16 0x0000) 2 : ℚ) * ACCEL_MG_LSB_2G = 0 := by
  refine ⟨⟨_, FXOS8700_get_eval s b0 b1 b2 b3 b4 b5 b6 b7 b8 b9 b10 b11⟩, ?_, ?_, ?_, ?_⟩
  · intro v hv
    have h2 := pyShiftRight_neg _ hv
    have : (pyShiftRight (toSigned16 v) 2 : ℚ) < 0 := by exact_mod_cast h2
    exact mul_neg_of_neg_of_pos this hs
  · show ((Int.fdiv (toSigned16 400) 4 : Int) : ℚ) * ACCEL_MG_LSB_2G = 244 / 10000
    norm_num [toSigned16, Int.fdiv, ACCEL_MG_LSB_2G]
  · show ((Int.fdiv (toSigned16 65136) 4 : Int) : ℚ) * ACCEL_MG_LSB_2G = -(244 / 10000)
    norm_num [toSigned16, show Int.fdiv (-400) 4 = -100 from by decide, ACCEL_MG_LSB_2G]
  · show ((Int.fdiv (toSigned16 0) 4 : Int) : ℚ) * ACCEL_MG_LSB_2G = 0
    norm_num [toSigned16, Int.fdiv]

/-- Closed witness for C1 at scale `ACCEL_MG_LSB_2G` and an arbitrary
12-byte burst. -/
theorem C1_accel_decode_witness :
    (pyShiftRight (toSigned16 0x0190) 2 : ℚ) * ACCEL_MG_LSB_2G = 244 / 10000 :=
  (C1_accel_decode ACCEL_MG_LSB_2G (by norm_num [ACCEL_MG_LSB_2G])
    1 0x90 0 0 0 0 0 0 0 0 0 0).2.2.1

/-- C5: if the burst read does not return exactly 12 bytes, `get` fails
(raises, modelled as `none`) and never returns a partially decoded
vector. -/
theorem C5_short_read (drv : FXOS8700) (data : List Nat)
    (h : data.length ≠ 12) : FXOS8700_get drv data = none := by
  unfold FXOS8700_get unpack6h
  simp [h]

/-- Closed witness for C5: an 11-byte burst makes `get` fail. -/
theorem C5_short_read_witness :
    FXOS8700_get ⟨some ACCEL_MG_LSB_2G⟩ [0, 0, 0, 0, 0, 0, 0, 0, 0, 0, 0] = none :=
  C5_short_read _ _ (by decide)

/-- C7: for every byte read from the temperature register, `temperature`
returns its 8-bit two's-complement reading: the result lies in
[-128, 127] and is congruent to the raw byte modulo 256 (which uniquely
characterises the two's-complement value); raw 0xFF returns -1 and raw
0x19 returns 25. -/
theorem C7_temperature (t : Nat) (h : t < 256) :
    (-128 ≤ FXOS8700_temperature t ∧ FXOS8700_temperature t ≤ 127 ∧
      FXOS8700_temperature t % 256 = (t : Int)) ∧
    FXOS8700_temperature 0xFF = -1 ∧ FXOS8700_temperature 0x19 = 25 := by
  refine ⟨?_, by decide, by decide⟩
  unfold FXOS8700_temperature toSigned8
  split <;> omega

/-- Closed witness for C7 at the raw byte 0xFF. -/
theorem C7_temperature_witness :
    -128 ≤ FXOS8700_temperature 0xFF ∧ FXOS8700_temperature 0xFF ≤ 127 ∧
      FXOS8700_temperature 0xFF % 256 = (0xFF : Int) :=
  (C7_temperature 0xFF (by decide)).1

/-- C2 counterexample: with a valid identity byte and the invalid range 3,
construction does fail with the invalid-configuration error, but the bus
write list is NOT empty: the standby write CTRL_REG1 := 0 (source line 71)
is issued before the range argument is examined, so the failure does not
occur "before any register write touches the hardware". -/
theorem C2_counterexample :
    (FXOS8700_init (some 3) FXOS8700_ID).1 =
      Except.error (DriverError.invalidConfiguration (some 3)) ∧
    (FXOS8700_init (some 3) FXOS8700_ID).2 = [⟨FXOS8700_REGISTER_CTRL_REG1, 0⟩] ∧
    (FXOS8700_init (some 3) FXOS8700_ID).2 ≠ [] := by
  refine ⟨rfl, rfl, ?_⟩
  simp [FXOS8700_init]

/-- C2 (amended): for every requested range outside {2, 4, 8} (and not the
omitted/default case), construction fails with the invalid-configuration
error having issued exactly one bus write, the standby write
CTRL_REG1 := 0 — in particular no range-configuration write ever reaches
the hardware. -/
theorem C2_invalid_range (gs : Int) (h2 : gs ≠ 2) (h4 : gs ≠ 4) (h8 : gs ≠ 8) :
    FXOS8700_init (some gs) FXOS8700_ID =
      (Except.error (DriverError.invalidConfiguration (some gs)),
       [⟨FXOS8700_REGISTER_CTRL_REG1, 0⟩]) := by
  unfold FXOS8700_init
  simp [h2, h4, h8]

/-- Closed witness for C2 (amended) at the invalid range 5. -/
theorem C2_invalid_range_witness :
    FXOS8700_init (some 5) FXOS8700_ID =
      (Except.error (DriverError.invalidConfiguration (some 5)),
       [⟨FXOS8700_REGISTER_CTRL_REG1, 0⟩]) :=
  C2_invalid_range 5 (by decide) (by decide) (by decide)

/-- C3: if the WHO_AM_I byte differs from 0xC7, construction fails with
the identity-mismatch error (carrying expected byte, actual byte and
device address) and issues no write at all; if it equals 0xC7 exactly,
construction proceeds to the configuration sequence (its first write,
CTRL_REG1 := 0, is issued whatever the range argument). -/
theorem C3_identity_check (gs : Option Int) (whoami : Nat) :
    (whoami ≠ FXOS8700_ID →
      FXOS8700_init gs whoami =
        (Except.error
          (DriverError.identityMismatch FXOS8700_ID whoami FXOS8700_ADDRESS), [])) ∧
    (whoami = FXOS8700_ID →
      ((FXOS8700_init gs whoami).2).take 1 = [⟨FXOS8700_REGISTER_CTRL_REG1, 0⟩]) := by
  constructor
  · intro h
    simp [FXOS8700_init, h]
  · intro h
    subst h
    unfold FXOS8700_init
    split_ifs with hw h1 h2 h3
    · exact absurd rfl hw
    all_goals rfl

/-- Closed witness for C3: the wrong identity byte 0x00 yields the
identity-mismatch failure with an empty write list. -/
theorem C3_identity_check_witness :
    FXOS8700_init none 0 =
      (Except.error (DriverError.identityMismatch FXOS8700_ID 0 FXOS8700_ADDRESS), []) :=
  (C3_identity_check none 0).1 (by decide)

/-- C4: every successful construction issues exactly the five writes
CTRL_REG1 := 0, XYZ_DATA_CFG := range code, CTRL_REG2 := 0x02,
magnetometer MCTRL_REG1 := 0x00, CTRL_REG1 := 0x05, in this order and no
others, where the range code agrees with the spec's table 2G→0, 4G→1,
8G→2 (default 2G). -/
theorem C4_write_sequence (gs : Option Int) (whoami : Nat) (drv : FXOS8700)
    (h : (FXOS8700_init gs whoami).1 = Except.ok drv) :
    (FXOS8700_init gs whoami).2 =
      [⟨FXOS8700_REGISTER_CTRL_REG1, 0⟩,
       ⟨FXOS8700_REGISTER_XYZ_DATA_CFG, specRangeCode gs⟩,
       ⟨FXOS8700_REGISTER_CTRL_REG2, 0x02⟩,
       ⟨FXOS8700_REGISTER_MCTRL_REG1, 0x00⟩,
       ⟨FXOS8700_REGISTER_CTRL_REG1, 0x05⟩] ∧
    specRangeCode (some 2) = ACCEL_RANGE_2G ∧
    specRangeCode (some 4) = ACCEL_RANGE_4G ∧
    specRangeCode (some 8) = ACCEL_RANGE_8G ∧
    specRangeCode none = ACCEL_RANGE_2G := by
  refine ⟨?_, rfl, rfl, rfl, rfl⟩
  unfold FXOS8700_init at h ⊢
  by_cases h0 : whoami ≠ FXOS8700_ID
  · rw [if_pos h0] at h
    exact absurd h (by simp)
  · rw [if_neg h0] at h ⊢
    by_cases h1 : gs = some 2 ∨ gs = none
    · rcases h1 with h1 | h1 <;> subst h1 <;> rfl
    · rw [if_neg h1] at h ⊢
      by_cases h2 : gs = some 4
      · subst h2; rfl
      · rw [if_neg h2] at h ⊢
        by_cases h3 : gs = some 8
        · subst h3; rfl
        · rw [if_neg h3] at h
          exact absurd h (by simp)

/-- Closed witness for C4 at range 4 and the correct identity byte. -/
theorem C4_write_sequence_witness :
    (FXOS8700_init (some 4) FXOS8700_ID).2 =
      [⟨FXOS8700_REGISTER_CTRL_REG1, 0⟩,
       ⟨FXOS8700_REGISTER_XYZ_DATA_CFG, specRangeCode (some 4)⟩,
       ⟨FXOS8700_REGISTER_CTRL_REG2, 0x02⟩,
       ⟨FXOS8700_REGISTER_MCTRL_REG1, 0x00⟩,
       ⟨FXOS8700_REGISTER_CTRL_REG1, 0x05⟩] ∧
    specRangeCode (some 2) = ACCEL_RANGE_2G ∧
    specRangeCode (some 4) = ACCEL_RANGE_4G ∧
    specRangeCode (some 8) = ACCEL_RANGE_8G ∧
    specRangeCode none = ACCEL_RANGE_2G :=
  C4_write_sequence (some 4) FXOS8700_ID ⟨some ACCEL_MG_LSB_4G⟩ rfl

/-- C6: for every 12-byte burst result, `get` decodes the last three
big-endian signed 16-bit fields at full resolution, with no shift, each
multiplied by the fixed constant `MAG_UT_LSB = 0.1`; raw 0x03E8 (1000)
decodes to 100 µT. -/
theorem C6_mag_decode (s : ℚ)
    (b0 b1 b2 b3 b4 b5 b6 b7 b8 b9 b10 b11 : Nat) :
    (∃ a, FXOS8700_get ⟨some s⟩ [b0, b1, b2, b3, b4, b5, b6, b7, b8, b9, b10, b11] =
        some (a, ((toSigned16 (be16 b6 b7) : ℚ) * MAG_UT_LSB,
                  (toSigned16 (be16 b8 b9) : ℚ) * MAG_UT_LSB,
                  (toSigned16 (be16 b10 b11) : ℚ) * MAG_UT_LSB))) ∧
    MAG_UT_LSB = 1 / 10 ∧
    (toSigned16 (be16 0x03 0xE8) : ℚ) * MAG_UT_LSB = 100 := by
  refine ⟨⟨_, FXOS8700_get_eval s b0 b1 b2 b3 b4 b5 b6 b7 b8 b9 b10 b11⟩, rfl, ?_⟩
  norm_num [be16, toSigned16, MAG_UT_LSB]

/-- C8: each supported range stores exactly the matching scale constant
and writes the matching 2-bit code to XYZ_DATA_CFG, and the omitted
(default) range behaves exactly as range 2. -/
theorem C8_range_table :
    ((FXOS8700_init (some 2) FXOS8700_ID).1 = Except.ok ⟨some ACCEL_MG_LSB_2G⟩ ∧
      (FXOS8700_init (some 2) FXOS8700_ID).2.getD 1 ⟨0, 0⟩ =
        ⟨FXOS8700_REGISTER_XYZ_DATA_CFG, 0⟩) ∧
    ((FXOS8700_init (some 4) FXOS8700_ID).1 = Except.ok ⟨some ACCEL_MG_LSB_4G⟩ ∧
      (FXOS8700_init (some 4) FXOS8700_ID).2.getD 1 ⟨0, 0⟩ =
        ⟨FXOS8700_REGISTER_XYZ_DATA_CFG, 1⟩) ∧
    ((FXOS8700_init (some 8) FXOS8700_ID).1 = Except.ok ⟨some ACCEL_MG_LSB_8G⟩ ∧
      (FXOS8700_init (some 8) FXOS8700_ID).2.getD 1 ⟨0, 0⟩ =
        ⟨FXOS8700_REGISTER_XYZ_DATA_CFG, 2⟩) ∧
    (ACCEL_MG_LSB_2G = 244 / 1000000 ∧ ACCEL_MG_LSB_4G = 488 / 1000000 ∧
      ACCEL_MG_LSB_8G = 976 / 1000000) ∧
    FXOS8700_init none FXOS8700_ID = FXOS8700_init (some 2) FXOS8700_ID :=
  ⟨⟨rfl, rfl⟩, ⟨rfl, rfl⟩, ⟨rfl, rfl⟩, ⟨rfl, rfl, rfl⟩, rfl⟩

/-- `get` succeeds on every 12-byte burst when the driver's scale is set. -/
theorem FXOS8700_get_isSome (s : ℚ) (drv : FXOS8700) (hs : drv.scale = some s)
    (data : List Nat) (hd : data.length = 12) :
    (FXOS8700_get drv data).isSome := by
  unfold FXOS8700_get unpack6h
  simp [hd, hs]

/-- C9: the scale field is set during every successful construction (to
some rational, never left `None`), and a driver so constructed can never
run `get` with an unset scale: on every 12-byte burst, `get` observes the
set scale and succeeds.  (Operations in the embedding take the driver
state and return none of it mutated: `get` and `temperature` are pure
functions of the constructed state, so no operation rewrites `scale`
after construction.) -/
theorem C9_scale_invariant (gs : Option Int) (whoami : Nat) (drv : FXOS8700)
    (h : (FXOS8700_init gs whoami).1 = Except.ok drv) :
    (∃ s : ℚ, drv.scale = some s) ∧
    ∀ data : List Nat, data.length = 12 → (FXOS8700_get drv data).isSome := by
  unfold FXOS8700_init at h
  by_cases h0 : whoami ≠ FXOS8700_ID
  · rw [if_pos h0] at h
    exact absurd h (by simp)
  · rw [if_neg h0] at h
    by_cases h1 : gs = some 2 ∨ gs = none
    · rw [if_pos h1] at h
      simp only [Except.ok.injEq] at h
      subst h
      exact ⟨⟨ACCEL_MG_LSB_2G, rfl⟩, fun data hd => FXOS8700_get_isSome _ _ rfl data hd⟩
    · rw [if_neg h1] at h
      by_cases h2 : gs = some 4
      · rw [if_pos h2] at h
        simp only [Except.ok.injEq] at h
        subst h
        exact ⟨⟨ACCEL_MG_LSB_4G, rfl⟩, fun data hd => FXOS8700_get_isSome _ _ rfl data hd⟩
      · rw [if_neg h2] at h
        by_cases h3 : gs = some 8
        · rw [if_pos h3] at h
          simp only [Except.ok.injEq] at h
          subst h
          exact ⟨⟨ACCEL_MG_LSB_8G, rfl⟩, fun data hd => FXOS8700_get_isSome _ _ rfl data hd⟩
        · rw [if_neg h3] at h
          exact absurd h (by simp)

/-- Closed witness for C9: the default-range construction. -/
theorem C9_scale_invariant_witness :
    (∃ s : ℚ, (⟨some ACCEL_MG_LSB_2G⟩ : FXOS8700).scale = some s) ∧
    ∀ data : List Nat, data.length = 12 →
      (FXOS8700_get ⟨some ACCEL_MG_LSB_2G⟩ data).isSome :=
  C9_scale_invariant none FXOS8700_ID ⟨some ACCEL_MG_LSB_2G⟩ rfl

/-- C10: two 12-byte bursts whose six 16-bit fields agree except possibly
in the two least-significant bits of each of the first three
(acceleration) fields decode to identical acceleration triples: the two
padding bits never influence the acceleration output. -/
theorem C10_padding_invariance (s : ℚ)
    (b0 b1 b2 b3 b4 b5 b6 b7 b8 b9 b10 b11 c0 c1 c2 c3 c4 c5 : Nat)
    (hx : be16 b0 b1 / 4 = be16 c0 c1 / 4)
    (hy : be16 b2 b3 / 4 = be16 c2 c3 / 4)
    (hz : be16 b4 b5 / 4 = be16 c4 c5 / 4) :
    (FXOS8700_get ⟨some s⟩ [b0, b1, b2, b3, b4, b5, b6, b7, b8, b9, b10, b11]).map
        Prod.fst =
    (FXOS8700_get ⟨some s⟩ [c0, c1, c2, c3, c4, c5, b6, b7, b8, b9, b10, b11]).map
        Prod.fst := by
  rw [FXOS8700_get_eval, FXOS8700_get_eval,
    toSigned16_shift_congr _ _ hx, toSigned16_shift_congr _ _ hy,
    toSigned16_shift_congr _ _ hz]

/-- Closed witness for C10: bursts differing only in padding bits of the
acceleration fields (0x0190 vs 0x0193, etc.) give equal acceleration. -/
theorem C10_padding_invariance_witness :
    (FXOS8700_get ⟨some ACCEL_MG_LSB_2G⟩
        [0x01, 0x90, 0xFE, 0x70, 0x00, 0x00, 0x03, 0xE8, 0x00, 0x01, 0x00, 0x02]).map
        Prod.fst =
    (FXOS8700_get ⟨some ACCEL_MG_LSB_2G⟩
        [0x01, 0x93, 0xFE, 0x71, 0x00, 0x03, 0x03, 0xE8, 0x00, 0x01, 0x00, 0x02]).map
        Prod.fst :=
  C10_padding_invariance ACCEL_MG_LSB_2G
    0x01 0x90 0xFE 0x70 0x00 0x00 0x03 0xE8 0x00 0x01 0x00 0x02
    0x01 0x93 0xFE 0x71 0x00 0x03
    (by decide) (by decide) (by decide)

end NxpImu
